import Mathlib

/-!
# File system calls of the teaching kernel (kern/syscall/file_syscalls.c)

A shallow embedding of `sys_open`, `sys_read`, `sys_write`, `sys_close` and
`sys_meld`.  Kernel state is passed explicitly.  Pointers to `struct openfile`
are natural numbers indexing a heap; the current process's file table is a list
of optional pointers whose length is the table's capacity.

Conventions of the embedding:
* `errno` values and byte values are natural numbers, `fd` and `*retval` are
  integers, `flags` is the 32-bit pattern of the C `int`;
* an out-parameter `int *retval` that points to an `int` becomes a field of
  the returned record; a call that passes a null `retval` is `sys_close_null`;
* `kmalloc`, `kfree` and `kprintf` are not represented;
* a call ends in one of the ways of `Outcome`: it returns, it waits in
  `lock_acquire` for a lock that is held, or it stores through a null pointer;
* offsets are non-negative `off_t` values, so the difference
  `ku.uio_offset - file->of_offset` is exact; `int_of_off` is its conversion
  to the 32-bit `int` that `*retval` is.
-/

namespace FileSyscalls

/-! ## Constants of kern/errno.h and kern/fcntl.h

The two headers are not among the source files.  Each constant stands for the
error kind of section 7 or the flag of section 6 of the specification that its
doc comment names, with the value the kernel's header gives it (the source
records `EINVAL == 8` in `sys_open`).  The theorems use only that the error
numbers are non-zero and distinct and that the recognized flags together are
the seven low bits. -/

/-- Modelled from the spec: the error kind "fault" (EFAULT of kern/errno.h). -/
def EFAULT : Nat := 6
/-- Modelled from the spec: the error kind "invalid-argument" (EINVAL of kern/errno.h). -/
def EINVAL : Nat := 8
/-- Modelled from the spec: the error kind "access-denied" (EACCES of kern/errno.h). -/
def EACCES : Nat := 10
/-- Modelled from the spec: the error kind "no-such-object" (ENOENT of kern/errno.h). -/
def ENOENT : Nat := 19
/-- Modelled from the spec: the error kind "already-exists" (EEXIST of kern/errno.h). -/
def EEXIST : Nat := 22
/-- Modelled from the spec: an "object-specific I/O error" (ENODEV of kern/errno.h). -/
def ENODEV : Nat := 25
/-- Modelled from the spec: the error kind "table-full" (EMFILE of kern/errno.h). -/
def EMFILE : Nat := 28
/-- Modelled from the spec: the error kind "bad-descriptor" (EBADF of kern/errno.h). -/
def EBADF : Nat := 30
/-- Modelled from the spec: an "object-specific I/O error" (ENOSPC of kern/errno.h). -/
def ENOSPC : Nat := 36

/-- Modelled from the spec: the access mode "read-only" (O_RDONLY of kern/fcntl.h). -/
def O_RDONLY : Nat := 0
/-- Modelled from the spec: the access mode "write-only" (O_WRONLY of kern/fcntl.h). -/
def O_WRONLY : Nat := 1
/-- Modelled from the spec: the access mode "read-write" (O_RDWR of kern/fcntl.h). -/
def O_RDWR : Nat := 2
/-- Modelled from the spec: the flag "create-if-missing" (O_CREAT of kern/fcntl.h). -/
def O_CREAT : Nat := 4
/-- Modelled from the spec: the flag "fail-if-exists" (O_EXCL of kern/fcntl.h). -/
def O_EXCL : Nat := 8
/-- Modelled from the spec: the flag "truncate-on-open" (O_TRUNC of kern/fcntl.h). -/
def O_TRUNC : Nat := 16
/-- Modelled from the spec: the flag "append-only" (O_APPEND of kern/fcntl.h). -/
def O_APPEND : Nat := 32
/-- Modelled from the spec: the flag "no-controlling-terminal" (O_NOCTTY of kern/fcntl.h). -/
def O_NOCTTY : Nat := 64
/-- Modelled from the spec: the mask of the access-mode bits (O_ACCMODE of kern/fcntl.h). -/
def O_ACCMODE : Nat := 3

/-- The local constant `allflags` of `sys_open`. -/
def allflags : Nat :=
  O_ACCMODE ||| O_CREAT ||| O_EXCL ||| O_TRUNC ||| O_APPEND ||| O_NOCTTY

/-- Bitwise complement of a 32-bit word (`~x` on a C `int`). -/
def not32 (x : Nat) : Nat := 4294967295 ^^^ x

/-! ## Data model -/

/-- Direction of a transfer (`enum uio_rw`). -/
inductive UioRw where
  | UIO_READ
  | UIO_WRITE
deriving DecidableEq, Repr

/-- The part of `struct uio` / `struct iovec` the system calls use:
the kernel buffer (as the bytes found at its address), the position in the
object, the bytes still to move, and the direction. -/
structure Uio where
  iov_kbase : List Nat
  uio_offset : Nat
  uio_resid : Nat
  uio_rw : UioRw
deriving DecidableEq, Repr

/-- The initialiser `uio_kinit(&iov, &ku, kbuf, len, pos, rw)`. -/
def uio_kinit (kbuf : List Nat) (len pos : Nat) (rw : UioRw) : Uio :=
  { iov_kbase := kbuf, uio_offset := pos, uio_resid := len, uio_rw := rw }

/-- Fields of `struct openfile`: the vnode handle, the access mode, the seek
position, whether `of_offsetlock` is held, and the reference count
(zero once the object has been destroyed). -/
structure Openfile where
  of_vnode : Nat
  of_accmode : Nat
  of_offset : Nat
  of_offsetlock : Bool
  of_refcount : Nat
deriving DecidableEq, Repr

/-- Modelled from the spec: the external collaborators of section 6, none of
which is in the source files.  `copyinstr` is the string transfer across the
user/kernel boundary; `vfs_open`, `vfs_close`, `VOP_ISSEEKABLE`, `VOP_READ`
and `VOP_WRITE` are the storage object.  Each returns an errno first where the
C function returns `int`; `σ` is the state of the storage layer and vnodes are
handles into it. -/
structure Collab (σ : Type) where
  copyinstr : String → Nat × String
  vfs_open : σ → String → Nat → Nat → Nat × σ × Nat
  vfs_close : σ → Nat → σ
  VOP_ISSEEKABLE : σ → Nat → Bool
  VOP_READ : σ → Nat → Uio → Nat × σ × Uio
  VOP_WRITE : σ → Nat → Uio → Nat × σ × Uio

/-- Kernel state seen by the file system calls: the storage layer, the heap of
open-file objects with the next free address, and `curproc->p_filetable`
(its slots, and the number of pins handed out by `filetable_get` and not yet
returned by `filetable_put`). -/
structure Kernel (σ : Type) where
  vfs : σ
  heap : Nat → Openfile
  heap_next : Nat
  ft_openfiles : List (Option Nat)
  ft_pins : Nat

/-- Result of `sys_open`, `sys_write` and `sys_close`: the returned errno,
the value stored through `retval`, and the state afterwards. -/
structure SysResult (σ : Type) where
  errno : Nat
  retval : Int
  k : Kernel σ

/-- Result of `sys_read`: as `SysResult`, with the caller's buffer afterwards. -/
structure ReadResult (σ : Type) where
  errno : Nat
  retval : Int
  buf : List Nat
  k : Kernel σ

/-- Result of `sys_meld`: `retval` is `none` when nothing was stored through it. -/
structure MeldResult (σ : Type) where
  errno : Nat
  retval : Option Int
  k : Kernel σ

/-- How a call into the kernel ends: it returns `r`; or the thread waits in
`lock_acquire` for a lock that is held, the state being `k`; or it stores
through a null pointer, the state being `k`; or, in this embedding only, the
bound on the iterations of an unbounded loop is reached. -/
inductive Outcome (σ : Type) (α : Type) where
  | returned (r : α)
  | blocked (k : Kernel σ)
  | faulted (k : Kernel σ)
  | nofuel

/-- Sequencing: what comes after a call is run only when the call returns. -/
def Outcome.andThen {σ α β : Type} (o : Outcome σ α) (f : α → Outcome σ β) : Outcome σ β :=
  match o with
  | Outcome.returned r => f r
  | Outcome.blocked k => Outcome.blocked k
  | Outcome.faulted k => Outcome.faulted k
  | Outcome.nofuel => Outcome.nofuel

/-- Conversion of an `off_t` value to `int` in the assignment
`*retval = ku.uio_offset - file->of_offset`: the low 32 bits, read as a two's
complement number. -/
def int_of_off (x : Int) : Int := (x + 2147483648) % 4294967296 - 2147483648

/-! ## Open-file objects (openfile.c, modelled) -/

/-- Replace the object at address `p`. -/
def setFile {σ : Type} (k : Kernel σ) (p : Nat) (f : Openfile) : Kernel σ :=
  { k with heap := fun q => if q = p then f else k.heap q }

/-- Modelled from the spec: `openfile_open` of openfile.c (not in the source
files), the operation "create" of section 4.1: opens the storage object with
the requested flags and mode, passes its error on, and on success returns a
fresh instance with `refcount = 1`, `offset = 0` and the access mode taken from
the access-mode bits of `flags`. -/
def openfile_open {σ : Type} (ops : Collab σ) (k : Kernel σ) (filename : String)
    (openflags mode : Nat) : Nat × Kernel σ × Nat :=
  match ops.vfs_open k.vfs filename openflags mode with
  | (result, vfs1, vn) =>
    if result ≠ 0 then (result, { k with vfs := vfs1 }, 0)
    else
      let file := k.heap_next
      let k1 : Kernel σ := { k with vfs := vfs1, heap_next := k.heap_next + 1 }
      (0, setFile k1 file
            { of_vnode := vn, of_accmode := openflags &&& O_ACCMODE, of_offset := 0,
              of_offsetlock := false, of_refcount := 1 }, file)

/-- Modelled from the spec: `openfile_incref` of openfile.c (not in the source
files), the operation "acquire" of section 4.1: increments `refcount`. -/
def openfile_incref {σ : Type} (k : Kernel σ) (file : Nat) : Kernel σ :=
  setFile k file { k.heap file with of_refcount := (k.heap file).of_refcount + 1 }

/-- Modelled from the spec: `openfile_decref` of openfile.c (not in the source
files), the operation "release" of section 4.1: decrements `refcount`; if it
reaches zero, releases the storage object and frees the instance. -/
def openfile_decref {σ : Type} (ops : Collab σ) (k : Kernel σ) (file : Nat) : Kernel σ :=
  let f := k.heap file
  let k1 := setFile k file { f with of_refcount := f.of_refcount - 1 }
  if f.of_refcount - 1 = 0 then { k1 with vfs := ops.vfs_close k1.vfs f.of_vnode } else k1

/-! ## The file table (filetable.c, modelled) -/

/-- The slot of descriptor `fd`, `none` when `fd` is out of range or the slot
is empty. -/
def slot (ft : List (Option Nat)) (fd : Int) : Option Nat :=
  if 0 ≤ fd ∧ fd < ft.length then (ft.getD fd.toNat none) else none

/-- Index of the lowest-numbered empty slot. -/
def lowestFree : List (Option Nat) → Option Nat
  | [] => none
  | none :: _ => some 0
  | some _ :: rest => (lowestFree rest).map (fun i => i + 1)

/-- Modelled from the spec: `filetable_okfd` of filetable.c (not in the source
files), section 4.2 "okfd: range/occupancy check without pinning"; section 4.3
says of close that out of range or already empty is "checked via okfd before
mutation". -/
def filetable_okfd {σ : Type} (k : Kernel σ) (fd : Int) : Bool :=
  decide (0 ≤ fd ∧ fd < k.ft_openfiles.length) && (slot k.ft_openfiles fd).isSome

/-- Modelled from the spec: `filetable_get` of filetable.c (not in the source
files), section 4.2 "get": bad-descriptor error if `fd` is out of range or the
slot is empty, otherwise the instance, pinned until the matching put. -/
def filetable_get {σ : Type} (k : Kernel σ) (fd : Int) : Nat × Kernel σ × Nat :=
  match slot k.ft_openfiles fd with
  | none => (EBADF, k, 0)
  | some file => (0, { k with ft_pins := k.ft_pins + 1 }, file)

/-- Modelled from the spec: `filetable_put` of filetable.c (not in the source
files), section 4.2 "put": releases the pin obtained by get and does not alter
`refcount`. -/
def filetable_put {σ : Type} (k : Kernel σ) (_fd : Int) (_file : Nat) : Kernel σ :=
  { k with ft_pins := k.ft_pins - 1 }

/-- Modelled from the spec: `filetable_place` of filetable.c (not in the source
files), section 4.2 "place": installs the instance in the lowest-numbered empty
slot without acquiring a reference; table-full error if no slot is free. -/
def filetable_place {σ : Type} (k : Kernel σ) (file : Nat) : Nat × Kernel σ × Int :=
  match lowestFree k.ft_openfiles with
  | none => (EMFILE, k, 0)
  | some i => (0, { k with ft_openfiles := k.ft_openfiles.set i (some file) }, (i : Int))

/-- Modelled from the spec: `filetable_placeat` of filetable.c (not in the
source files), section 4.2 "placeat": swaps the slot's contents with the given
instance or null and returns what was there.  The caller validates `fd`. -/
def filetable_placeat {σ : Type} (k : Kernel σ) (newfile : Option Nat) (fd : Int) :
    Kernel σ × Option Nat :=
  if 0 ≤ fd ∧ fd < k.ft_openfiles.length then
    ({ k with ft_openfiles := k.ft_openfiles.set fd.toNat newfile },
      k.ft_openfiles.getD fd.toNat none)
  else (k, none)

/-! ## The offset lock (synch.c, modelled) -/

/-- Modelled from the spec: `lock_acquire` of synch.c (not in the source files)
on `file->of_offsetlock`, the "mutual-exclusion guard protecting `offset`" of
section 3: the caller gets the guard when it is free, and waits while it is
held (`none`). -/
def lock_acquire {σ : Type} (k : Kernel σ) (file : Nat) : Option (Kernel σ) :=
  if (k.heap file).of_offsetlock = true then none
  else some (setFile k file { k.heap file with of_offsetlock := true })

/-- Modelled from the spec: `lock_release` of synch.c (not in the source files)
on `file->of_offsetlock`: the guard is free afterwards. -/
def lock_release {σ : Type} (k : Kernel σ) (file : Nat) : Kernel σ :=
  setFile k file { k.heap file with of_offsetlock := false }

/-! ## The system calls (kern/syscall/file_syscalls.c) -/

/-- The system call `sys_open(upath, flags, mode, retval)`. -/
def sys_open {σ : Type} (ops : Collab σ) (k : Kernel σ) (upath : String)
    (flags mode : Nat) : SysResult σ :=
  if allflags ≠ (flags ||| allflags) then ⟨EINVAL, -1, k⟩
  else
    match ops.copyinstr upath with
    | (e1, kpath) =>
      if e1 ≠ 0 then ⟨e1, -1, k⟩
      else
        match openfile_open ops k kpath flags mode with
        | (e2, k1, file) =>
          if e2 ≠ 0 then ⟨e2, -1, k1⟩
          else
            let k2 := openfile_incref k1 file
            match filetable_place k2 file with
            | (e3, k3, fd) =>
              if e3 ≠ 0 then ⟨e3, -1, k3⟩
              else ⟨0, fd, k3⟩

/-- The system call `sys_read(fd, buf, size, retval)`. -/
def sys_read {σ : Type} (ops : Collab σ) (k : Kernel σ) (fd : Int) (buf : List Nat)
    (size : Nat) : Outcome σ (ReadResult σ) :=
  match filetable_get k fd with
  | (e1, k1, file) =>
    if e1 ≠ 0 then Outcome.returned ⟨e1, -1, buf, k1⟩
    else
      let seekable := ops.VOP_ISSEEKABLE k1.vfs (k1.heap file).of_vnode
      match (if seekable then lock_acquire k1 file else some k1) with
      | none => Outcome.blocked k1
      | some k2 =>
        if (k2.heap file).of_accmode = O_WRONLY then Outcome.returned ⟨EACCES, -1, buf, k2⟩
        else
          let ku := uio_kinit buf size (k2.heap file).of_offset UioRw.UIO_READ
          match ops.VOP_READ k2.vfs (k2.heap file).of_vnode ku with
          | (e2, vfs3, ku3) =>
            let k3 : Kernel σ := { k2 with vfs := vfs3 }
            if e2 ≠ 0 then Outcome.returned ⟨e2, -1, ku3.iov_kbase, k3⟩
            else
              let retval : Int :=
                int_of_off ((ku3.uio_offset : Int) - ((k3.heap file).of_offset : Int))
              let k4 := setFile k3 file { k3.heap file with of_offset := ku3.uio_offset }
              let k5 := if seekable then lock_release k4 file else k4
              Outcome.returned ⟨0, retval, ku3.iov_kbase, filetable_put k5 fd file⟩

/-- The system call `sys_write(fd, buf, nbytes, retval)`. -/
def sys_write {σ : Type} (ops : Collab σ) (k : Kernel σ) (fd : Int) (buf : List Nat)
    (nbytes : Nat) : Outcome σ (SysResult σ) :=
  match filetable_get k fd with
  | (e1, k1, file) =>
    if e1 ≠ 0 then Outcome.returned ⟨e1, -1, k1⟩
    else
      let seekable := ops.VOP_ISSEEKABLE k1.vfs (k1.heap file).of_vnode
      match (if seekable then lock_acquire k1 file else some k1) with
      | none => Outcome.blocked k1
      | some k2 =>
        if (k2.heap file).of_accmode = O_RDONLY then Outcome.returned ⟨EACCES, -1, k2⟩
        else
          let ku := uio_kinit buf nbytes (k2.heap file).of_offset UioRw.UIO_WRITE
          match ops.VOP_WRITE k2.vfs (k2.heap file).of_vnode ku with
          | (_, vfs3, ku3) =>
            let k3 : Kernel σ := { k2 with vfs := vfs3 }
            let retval : Int :=
              int_of_off ((ku3.uio_offset : Int) - ((k3.heap file).of_offset : Int))
            let k4 := if seekable then lock_release k3 file else k3
            Outcome.returned ⟨0, retval, filetable_put k4 fd file⟩

/-- The statements of `sys_close` that follow the `filetable_okfd` check:
`filetable_placeat` with a null replacement, the test of the previous entry,
`openfile_decref`. -/
def sys_close_tail {σ : Type} (ops : Collab σ) (k : Kernel σ) (fd : Int) : SysResult σ :=
  match filetable_placeat k none fd with
  | (k1, file) =>
    match file with
    | none => ⟨EFAULT, -1, k1⟩
    | some f => ⟨0, 0, openfile_decref ops k1 f⟩

/-- The system call `sys_close(fd, retval)`. -/
def sys_close {σ : Type} (ops : Collab σ) (k : Kernel σ) (fd : Int) : SysResult σ :=
  if ¬ (filetable_okfd k fd = true) then ⟨EBADF, -1, k⟩
  else sys_close_tail ops k fd

/-- The call `sys_close(fd, errno)` as `sys_meld` makes it (lines 439-441):
the second argument is the `int` variable `errno`, which is 0 there, so the
parameter `retval` of `sys_close` is the null pointer.  Each path of
`sys_close` ends with a store through `retval` (lines 247, 257, 263) that
comes after its last change of the state, so the call does not return: it
stores through the null pointer in the state `sys_close` would return with. -/
def sys_close_null {σ : Type} (ops : Collab σ) (k : Kernel σ) (fd : Int) :
    Outcome σ (SysResult σ) :=
  Outcome.faulted (sys_close ops k fd).k

/-- The `while(done)` loop of `sys_meld`, with the locals `write1size`,
`write2size` and `readbuf` passed along.  The loop has no bound in the source;
`fuel` bounds the number of iterations here.  A returned pair is the errno of
the failing call (non-zero: the function returns it at once) or `0` after the
`break`, with the state.  The array `readbuf` is declared in the loop body
without initialiser; it is taken to keep the bytes of the previous transfer. -/
def meld_loop {σ : Type} (ops : Collab σ) :
    Nat → Kernel σ → Int → Int → Int → Int → Int → List Nat → Outcome σ (Nat × Kernel σ)
  | 0, _, _, _, _, _, _, _ => Outcome.nofuel
  | fuel + 1, k, fd1, fd2, fd3, write1size, write2size, readbuf =>
    if write1size = 0 ∧ write2size = 0 then Outcome.returned (0, k)
    else
      (sys_read ops k fd1 readbuf 4).andThen fun r1 =>
      if r1.errno ≠ 0 then Outcome.returned (r1.errno, r1.k)
      else
        (if r1.retval ≠ 0 then sys_write ops r1.k fd3 r1.buf 4
         else Outcome.returned ⟨0, 0, r1.k⟩).andThen fun w1 =>
        if w1.errno ≠ 0 then Outcome.returned (w1.errno, w1.k)
        else
          (sys_read ops w1.k fd2 r1.buf 4).andThen fun r2 =>
          if r2.errno ≠ 0 then Outcome.returned (r2.errno, r2.k)
          else
            (if r2.retval ≠ 0 then sys_write ops r2.k fd3 r2.buf 4
             else Outcome.returned ⟨0, 0, r2.k⟩).andThen fun w2 =>
            if w2.errno ≠ 0 then Outcome.returned (w2.errno, w2.k)
            else meld_loop ops fuel w2.k fd1 fd2 fd3 r1.retval r2.retval r2.buf

/-- The system call `sys_meld(pn1, pn2, pn3, retval)`.  `pn1` and `pn2` are
`none` for a null pointer; `readbuf` is what the stack holds where the local
array of that name is placed; `fuel` bounds the loop (see `meld_loop`). -/
def sys_meld {σ : Type} (ops : Collab σ) (fuel : Nat) (k : Kernel σ)
    (pn1 pn2 : Option String) (pn3 : String) (readbuf : List Nat) :
    Outcome σ (MeldResult σ) :=
  match pn1, pn2 with
  | none, _ => Outcome.returned ⟨EINVAL, some (-1), k⟩
  | some _, none => Outcome.returned ⟨EINVAL, some (-1), k⟩
  | some p1, some p2 =>
    match ops.copyinstr p1 with
    | (c1, file1) =>
    if c1 ≠ 0 then Outcome.returned ⟨c1, some (-1), k⟩ else
    match openfile_open ops k file1 O_RDONLY 45 with
    | (e1, k1, ofile1) =>
    if e1 ≠ 0 then Outcome.returned ⟨e1, some (-1), k1⟩ else
    match ops.copyinstr p2 with
    | (c2, file2) =>
    if c2 ≠ 0 then Outcome.returned ⟨c2, some (-1), k1⟩ else
    match openfile_open ops k1 file2 O_RDONLY 45 with
    | (e2, k2, ofile2) =>
    if e2 ≠ 0 then Outcome.returned ⟨e2, some (-1), k2⟩ else
    match ops.copyinstr pn3 with
    | (c3, file3) =>
    if c3 ≠ 0 then Outcome.returned ⟨c3, some (-1), k2⟩ else
    match openfile_open ops k2 file3 (O_APPEND ||| O_RDWR ||| O_EXCL ||| O_CREAT) 666 with
    | (e3, k3, ofile3) =>
    if e3 ≠ 0 then Outcome.returned ⟨e3, some (-1), k3⟩ else
    let k4 := openfile_incref k3 ofile1
    let k5 := openfile_incref k4 ofile2
    let k6 := openfile_incref k5 ofile3
    match filetable_place k6 ofile1 with
    | (p1e, k7, fd1) =>
    if p1e ≠ 0 then Outcome.returned ⟨p1e, some (-1), k7⟩ else
    match filetable_place k7 ofile2 with
    | (p2e, k8, fd2) =>
    if p2e ≠ 0 then Outcome.returned ⟨p2e, some (-1), k8⟩ else
    match filetable_place k8 ofile3 with
    | (p3e, k9, fd3) =>
    if p3e ≠ 0 then Outcome.returned ⟨p3e, some (-1), k9⟩ else
    (meld_loop ops fuel k9 fd1 fd2 fd3 (-1) (-1) readbuf).andThen fun loop =>
    if loop.1 ≠ 0 then Outcome.returned ⟨loop.1, some (-1), loop.2⟩
    else
      (sys_close_null ops loop.2 fd1).andThen fun close1 =>
      (sys_close_null ops close1.k fd2).andThen fun close2 =>
      (sys_close_null ops close2.k fd3).andThen fun close3 =>
      Outcome.returned ⟨0, none, close3.k⟩

/-! ## A storage object for concrete runs -/

/-- Modelled from the spec: a storage collaborator of section 6 made of named,
seekable, byte-addressable objects; a vnode handle is the object's index. -/
abbrev Ramfs := List (String × List Nat)

/-- Index of the object called `name`. -/
def ramfs_lookup : Ramfs → String → Option Nat
  | [], _ => none
  | (n, _) :: rest, name =>
    if n = name then some 0 else (ramfs_lookup rest name).map (fun i => i + 1)

/-- Contents of the object called `name`. -/
def ramfs_contents (fs : Ramfs) (name : String) : Option (List Nat) :=
  (ramfs_lookup fs name).map (fun i => (fs.getD i ("", [])).2)

/-- Modelled from the spec: `open_by_name(path, flags, mode)` with the creation
policy of the recognized flags: create-if-missing, fail-if-exists,
truncate-on-open; the three access modes are the values 0, 1 and 2. -/
def ramfs_open (fs : Ramfs) (path : String) (flags _mode : Nat) : Nat × Ramfs × Nat :=
  if flags &&& O_ACCMODE = 3 then (EINVAL, fs, 0)
  else
    match ramfs_lookup fs path with
    | some vn =>
      if flags &&& O_CREAT ≠ 0 ∧ flags &&& O_EXCL ≠ 0 then (EEXIST, fs, 0)
      else if flags &&& O_TRUNC ≠ 0 then (0, fs.set vn (path, []), vn)
      else (0, fs, vn)
    | none =>
      if flags &&& O_CREAT ≠ 0 then (0, fs ++ [(path, [])], fs.length)
      else (ENOENT, fs, 0)

/-- Modelled from the spec: `read_at(object, buffer, len, offset)`: moves the
bytes of the object from `uio_offset` on, at most `uio_resid` of them, to the
start of the buffer and advances the uio by the number moved. -/
def ramfs_read (fs : Ramfs) (vn : Nat) (u : Uio) : Nat × Ramfs × Uio :=
  let chunk := ((fs.getD vn ("", [])).2.drop u.uio_offset).take u.uio_resid
  (0, fs, { u with iov_kbase := chunk ++ u.iov_kbase.drop chunk.length,
                   uio_offset := u.uio_offset + chunk.length,
                   uio_resid := u.uio_resid - chunk.length })

/-- Modelled from the spec: `write_at(object, buffer, len, offset)`: stores the
first `uio_resid` bytes of the buffer in the object at `uio_offset` (zero
filling a gap past the end) and advances the uio by the number stored. -/
def ramfs_write (fs : Ramfs) (vn : Nat) (u : Uio) : Nat × Ramfs × Uio :=
  let obj := fs.getD vn ("", [])
  let chunk := u.iov_kbase.take u.uio_resid
  let padded := obj.2 ++ List.replicate (u.uio_offset - obj.2.length) 0
  let data := padded.take u.uio_offset ++ chunk ++ padded.drop (u.uio_offset + chunk.length)
  (0, fs.set vn (obj.1, data),
    { u with uio_offset := u.uio_offset + chunk.length,
             uio_resid := u.uio_resid - chunk.length })

/-- The collaborators used for concrete runs: string transfer always succeeds,
the storage object is `Ramfs`. -/
def ramfs : Collab Ramfs :=
  { copyinstr := fun s => (0, s),
    vfs_open := ramfs_open,
    vfs_close := fun fs _ => fs,
    VOP_ISSEEKABLE := fun _ _ => true,
    VOP_READ := ramfs_read,
    VOP_WRITE := ramfs_write }

/-- As `ramfs`, with a storage object whose every read fails with `ENODEV` and
whose every write fails with `ENOSPC`, nothing being moved. -/
def faultyfs : Collab Ramfs :=
  { ramfs with
    VOP_READ := fun fs _ u => (ENODEV, fs, u),
    VOP_WRITE := fun fs _ u => (ENOSPC, fs, u) }

/-- As `ramfs`, with a storage object that honours "append-only" for every
write: the bytes go to the end of the object whatever position is asked. -/
def appendfs : Collab Ramfs :=
  { ramfs with
    VOP_WRITE := fun fs vn u =>
      ramfs_write fs vn { u with uio_offset := (fs.getD vn ("", [])).2.length } }

/-- An object that was never allocated. -/
def nofile : Openfile :=
  { of_vnode := 0, of_accmode := 0, of_offset := 0, of_offsetlock := false, of_refcount := 0 }

/-- A kernel whose process has an empty table of `cap` slots and whose storage
holds the given objects. -/
def boot (fs : Ramfs) (cap : Nat) : Kernel Ramfs :=
  { vfs := fs, heap := fun _ => nofile, heap_next := 0,
    ft_openfiles := List.replicate cap none, ft_pins := 0 }

/-- The bytes of a string literal. -/
def bytes (s : String) : List Nat := s.toList.map Char.toNat

/-- The kernel after `open("f", flags, 0)` as the first call of a process whose
table has four slots, the object "f" existing with contents `data`. -/
def opened (data : List Nat) (flags : Nat) : Kernel Ramfs :=
  (sys_open ramfs (boot [("f", data)] 4) "f" flags 0).k

/-- The two sources of the 6-byte / 4-byte scenario. -/
def shortSources : Ramfs := [("A", [1, 2, 3, 4, 5, 6]), ("B", [11, 12, 13, 14])]

/-- The two sources written by the test program userland/testbin/meld/meld.c,
under the names it gives them. -/
def testSources : Ramfs :=
  [("meldtest1", bytes "AAAABBBBCCCCDDDD"), ("meldtest2", bytes "eeeeffffgggghhhh")]

/-- The way a call ended, without the state. -/
inductive Ending where
  | returned (errno : Nat)
  | blocked
  | faulted
  | nofuel
deriving DecidableEq, Repr

/-- What a state shows of a run of `sys_meld`: the contents of the destination,
the table, and the reference counts of the first three objects of the heap. -/
def view (dest : String) (k : Kernel Ramfs) :
    Option (List Nat) × List (Option Nat) × List Nat :=
  (ramfs_contents k.vfs dest, k.ft_openfiles,
    [(k.heap 0).of_refcount, (k.heap 1).of_refcount, (k.heap 2).of_refcount])

/-- What a run of `sys_meld` leaves to observe: how it ended and the `view` of
the state it ended in. -/
def observe (dest : String) (o : Outcome Ramfs (MeldResult Ramfs)) :
    Ending × Option (Option (List Nat) × List (Option Nat) × List Nat) :=
  match o with
  | Outcome.returned r => (Ending.returned r.errno, some (view dest r.k))
  | Outcome.blocked k => (Ending.blocked, some (view dest k))
  | Outcome.faulted k => (Ending.faulted, some (view dest k))
  | Outcome.nofuel => (Ending.nofuel, none)

/-! ## Bits of the flag word -/

theorem testBit_allflags (i : Nat) : allflags.testBit i = decide (i < 7) := by
  have h : allflags = 2 ^ 7 - 1 := by decide
  rw [h]
  exact Nat.testBit_two_pow_sub_one 7 i

theorem testBit_not32_allflags (i : Nat) :
    (not32 allflags).testBit i = (decide (i < 32) && !decide (i < 7)) := by
  have h : (4294967295 : Nat) = 2 ^ 32 - 1 := by norm_num
  unfold not32
  rw [Nat.testBit_xor, testBit_allflags, h, Nat.testBit_two_pow_sub_one]
  by_cases h7 : i < 7
  · have h32 : i < 32 := by omega
    simp [h7, h32]
  · simp [h7]

theorem testBit_lt_word {flags i : Nat} (hflags : flags < 2 ^ 32)
    (hbit : flags.testBit i = true) : i < 32 := by
  by_contra hge
  have hpow : (2 : Nat) ^ 32 ≤ 2 ^ i := Nat.pow_le_pow_right (by norm_num) (by omega)
  have hf : flags.testBit i = false := Nat.testBit_lt_two_pow (lt_of_lt_of_le hflags hpow)
  rw [hf] at hbit
  exact Bool.noConfusion hbit

theorem flag_check_iff_outside_bit (flags : Nat) :
    allflags ≠ (flags ||| allflags) ↔
      ∃ i, flags.testBit i = true ∧ allflags.testBit i = false := by
  constructor
  · intro hne
    obtain ⟨i, hi⟩ := Nat.ne_implies_bit_diff hne
    refine ⟨i, ?_⟩
    rw [Nat.testBit_or] at hi
    cases hf : flags.testBit i <;> cases ha : allflags.testBit i <;> simp_all
  · rintro ⟨i, hf, ha⟩ heq
    have h := congrArg (fun x => Nat.testBit x i) heq
    simp only [Nat.testBit_or, hf, ha] at h
    exact Bool.noConfusion h

theorem mask_iff_outside_bit (flags : Nat) (hflags : flags < 2 ^ 32) :
    flags &&& not32 allflags ≠ 0 ↔
      ∃ i, flags.testBit i = true ∧ allflags.testBit i = false := by
  constructor
  · intro hne
    obtain ⟨i, hi⟩ := Nat.ne_zero_implies_bit_true hne
    refine ⟨i, ?_⟩
    rw [Nat.testBit_and, testBit_not32_allflags] at hi
    rw [testBit_allflags]
    simp only [Bool.and_eq_true, decide_eq_true_eq, Bool.not_eq_true', decide_eq_false_iff_not]
      at hi
    exact ⟨hi.1, by simpa using hi.2.2⟩
  · rintro ⟨i, hf, ha⟩ hz
    have h32 : i < 32 := testBit_lt_word hflags hf
    rw [testBit_allflags] at ha
    have h7 : ¬ i < 7 := by simpa using ha
    have h := congrArg (fun x => Nat.testBit x i) hz
    simp only [Nat.testBit_and, testBit_not32_allflags, hf, Nat.zero_testBit] at h
    simp [h32, h7] at h

/-! ## The table and the reference count under the modelled helpers -/

theorem slot_eq_none_iff (ft : List (Option Nat)) (fd : Int) :
    slot ft fd = none ↔
      (¬ (0 ≤ fd ∧ fd < (ft.length : Int)) ∨ ft.getD fd.toNat none = none) := by
  unfold slot
  by_cases h : 0 ≤ fd ∧ fd < (ft.length : Int)
  · simp [h]
  · simp [h]

theorem slot_set_none (ft : List (Option Nat)) (fd : Int) :
    slot (ft.set fd.toNat none) fd = none := by
  unfold slot
  by_cases h : 0 ≤ fd ∧ fd < ((ft.set fd.toNat none).length : Int)
  · rw [if_pos h]
    have hlt : fd.toNat < ft.length := by
      have h2 := h.2
      rw [List.length_set] at h2
      omega
    simp [List.getD_eq_getElem?_getD, List.getElem?_set_self, hlt]
  · rw [if_neg h]

theorem openfile_decref_ft {σ : Type} (ops : Collab σ) (k : Kernel σ) (file : Nat) :
    (openfile_decref ops k file).ft_openfiles = k.ft_openfiles := by
  unfold openfile_decref
  by_cases h : (k.heap file).of_refcount - 1 = 0 <;> simp [h, setFile]

theorem openfile_decref_heap {σ : Type} (ops : Collab σ) (k : Kernel σ) (file : Nat) :
    (openfile_decref ops k file).heap =
      fun q => if q = file then
        { k.heap file with of_refcount := (k.heap file).of_refcount - 1 } else k.heap q := by
  unfold openfile_decref
  by_cases h : (k.heap file).of_refcount - 1 = 0 <;> simp [h, setFile]

theorem sys_close_of_slot_none {σ : Type} (ops : Collab σ) (k : Kernel σ) (fd : Int)
    (h : slot k.ft_openfiles fd = none) : sys_close ops k fd = ⟨EBADF, -1, k⟩ := by
  simp [sys_close, filetable_okfd, h]

theorem sys_close_of_slot_some {σ : Type} (ops : Collab σ) (k : Kernel σ) (fd : Int)
    (file : Nat) (h : slot k.ft_openfiles fd = some file) :
    sys_close ops k fd =
      ⟨0, 0, openfile_decref ops
        { k with ft_openfiles := k.ft_openfiles.set fd.toNat none } file⟩ := by
  have hr : 0 ≤ fd ∧ fd < (k.ft_openfiles.length : Int) := by
    by_contra hc
    simp [slot, hc] at h
  have hg : k.ft_openfiles.getD fd.toNat none = some file := by
    unfold slot at h
    rwa [if_pos hr] at h
  unfold sys_close sys_close_tail filetable_okfd filetable_placeat
  rw [h, if_pos hr, hg]
  simp [hr]

theorem set_none_of_getD_none (ft : List (Option Nat)) (i : Nat)
    (h : ft.getD i none = none) : ft.set i none = ft := by
  induction ft generalizing i with
  | nil => rfl
  | cons a rest ih =>
    cases i with
    | zero =>
      have ha : a = none := by simpa using h
      simp [ha]
    | succ j =>
      have hj : rest.getD j none = none := by simpa using h
      simp [ih j hj]

/-- The statements of `sys_close` after the `filetable_okfd` check, run on a
descriptor in range whose slot is empty, return `EFAULT` and leave the state as
it was.  With `filetable_okfd` checking occupancy they are never run on such a
descriptor. -/
theorem sys_close_tail_of_empty_slot {σ : Type} (ops : Collab σ) (k : Kernel σ) (fd : Int)
    (hr : 0 ≤ fd ∧ fd < (k.ft_openfiles.length : Int))
    (hg : k.ft_openfiles.getD fd.toNat none = none) :
    sys_close_tail ops k fd = ⟨EFAULT, -1, k⟩ := by
  unfold sys_close_tail filetable_placeat
  rw [if_pos hr, hg, set_none_of_getD_none _ _ hg]

theorem lowestFree_spec (ft : List (Option Nat)) (i : Nat) (h : lowestFree ft = some i) :
    i < ft.length ∧ ft.getD i none = none := by
  induction ft generalizing i with
  | nil => simp [lowestFree] at h
  | cons a rest ih =>
    cases a with
    | none =>
      simp only [lowestFree, Option.some.injEq] at h
      subst h
      simp
    | some x =>
      simp only [lowestFree, Option.map_eq_some'] at h
      obtain ⟨j, hj, rfl⟩ := h
      have := ih j hj
      simpa using this

theorem set_set_none_of_getD_none (ft : List (Option Nat)) (i : Nat) (x : Option Nat)
    (h : ft.getD i none = none) : (ft.set i x).set i none = ft := by
  rw [List.set_set]
  exact set_none_of_getD_none ft i h

theorem sys_open_success {σ : Type} (ops : Collab σ) (k : Kernel σ) (upath : String)
    (flags mode : Nat) (h : (sys_open ops k upath flags mode).errno = 0) :
    ∃ vfs1 vn i, lowestFree k.ft_openfiles = some i ∧
      sys_open ops k upath flags mode =
        ⟨0, (i : Int),
          { vfs := vfs1,
            heap := fun q => if q = k.heap_next then
              { of_vnode := vn, of_accmode := flags &&& O_ACCMODE, of_offset := 0,
                of_offsetlock := false, of_refcount := 2 } else k.heap q,
            heap_next := k.heap_next + 1,
            ft_openfiles := k.ft_openfiles.set i (some k.heap_next),
            ft_pins := k.ft_pins }⟩ := by
  unfold sys_open at h ⊢
  by_cases hf : allflags ≠ (flags ||| allflags)
  · rw [if_pos hf] at h
    simp [EINVAL] at h
  · rw [if_neg hf] at h ⊢
    rcases hc : ops.copyinstr upath with ⟨e1, kpath⟩
    simp only [hc] at h ⊢
    by_cases h1 : e1 ≠ 0
    · rw [if_pos h1] at h
      exact absurd h h1
    · rw [if_neg h1] at h ⊢
      unfold openfile_open at h ⊢
      rcases hv : ops.vfs_open k.vfs kpath flags mode with ⟨e2, vfs1, vn⟩
      simp only [hv] at h ⊢
      by_cases h2 : e2 ≠ 0
      · simp only [if_pos h2] at h
        exact absurd h h2
      · simp only [if_neg h2, ne_eq, not_true_eq_false, if_false] at h ⊢
        unfold filetable_place at h ⊢
        cases hl : lowestFree k.ft_openfiles with
        | none =>
          simp [openfile_incref, setFile, hl, EMFILE] at h
        | some i =>
          refine ⟨vfs1, vn, i, rfl, ?_⟩
          simp only [openfile_incref, setFile, hl]
          simp only [Nat.cast_ofNat, ne_eq, not_true_eq_false, if_false, if_true]
          congr 2
          funext q
          by_cases hq : q = k.heap_next <;> simp [hq]

/-- C5: the flag check of `sys_open`, `allflags != (flags | allflags)`, holds
exactly for the 32-bit values with a bit set outside `allflags`, that is exactly
when `(flags & ~allflags) != 0`; for every such value `sys_open` returns
`EINVAL` with `*retval = -1` and the kernel state (descriptor table, open-file
instances, storage) is the one it was called in, whatever the collaborators
would have done. -/
theorem sys_open_rejects_unrecognized_flags {σ : Type} (ops : Collab σ) (k : Kernel σ)
    (upath : String) (flags mode : Nat) (hflags : flags < 2 ^ 32) :
    (allflags ≠ (flags ||| allflags) ↔ flags &&& not32 allflags ≠ 0) ∧
    (flags &&& not32 allflags ≠ 0 ↔
      ∃ i, flags.testBit i = true ∧ allflags.testBit i = false) ∧
    (flags &&& not32 allflags ≠ 0 →
      sys_open ops k upath flags mode = ⟨EINVAL, -1, k⟩) := by
  have h1 := flag_check_iff_outside_bit flags
  have h2 := mask_iff_outside_bit flags hflags
  refine ⟨h1.trans h2.symm, h2, ?_⟩
  intro hm
  have hc : allflags ≠ (flags ||| allflags) := (h1.trans h2.symm).mpr hm
  unfold sys_open
  rw [if_pos hc]

/-- Witness of C5 at `flags = 128` (the first bit above `O_NOCTTY`). -/
theorem sys_open_rejects_unrecognized_flags_witness :
    (128 : Nat) < 2 ^ 32 ∧ 128 &&& not32 allflags ≠ 0 ∧
    sys_open ramfs (boot [] 4) "f" 128 0 = ⟨EINVAL, -1, boot [] 4⟩ :=
  ⟨by decide, by decide,
    (sys_open_rejects_unrecognized_flags ramfs (boot [] 4) "f" 128 0 (by decide)).2.2
      (by decide)⟩

/-- C4: `sys_close(fd)` returns `EBADF` (with `*retval = -1`) and leaves the
whole state as it was whenever `fd` is out of range or its slot is empty; when
the slot holds an instance it returns success, the table is the old one with
that slot emptied, the instance that was there has one reference less, and a
second `sys_close(fd)` right afterwards returns `EBADF` and changes nothing. -/
theorem sys_close_ebadf_or_releases {σ : Type} (ops : Collab σ) (k : Kernel σ) (fd : Int) :
    ((¬ (0 ≤ fd ∧ fd < (k.ft_openfiles.length : Int)) ∨
        k.ft_openfiles.getD fd.toNat none = none) →
      sys_close ops k fd = ⟨EBADF, -1, k⟩) ∧
    (∀ file : Nat, (0 ≤ fd ∧ fd < (k.ft_openfiles.length : Int)) →
      k.ft_openfiles.getD fd.toNat none = some file →
      (sys_close ops k fd).errno = 0 ∧
      (sys_close ops k fd).retval = 0 ∧
      (sys_close ops k fd).k.ft_openfiles = k.ft_openfiles.set fd.toNat none ∧
      (sys_close ops k fd).k.ft_openfiles.getD fd.toNat none = none ∧
      ((sys_close ops k fd).k.heap file).of_refcount = (k.heap file).of_refcount - 1 ∧
      sys_close ops (sys_close ops k fd).k fd = ⟨EBADF, -1, (sys_close ops k fd).k⟩) := by
  constructor
  · intro h
    exact sys_close_of_slot_none ops k fd ((slot_eq_none_iff _ _).mpr h)
  · intro file hr hg
    have hs : slot k.ft_openfiles fd = some file := by
      unfold slot
      rw [if_pos hr]
      exact hg
    have hlt : fd.toNat < k.ft_openfiles.length := by omega
    rw [sys_close_of_slot_some ops k fd file hs]
    refine ⟨rfl, rfl, ?_, ?_, ?_, ?_⟩
    · simp [openfile_decref_ft]
    · simp [openfile_decref_ft, List.getD_eq_getElem?_getD, List.getElem?_set_self, hlt]
    · simp [openfile_decref_heap]
    · apply sys_close_of_slot_none
      simp only [openfile_decref_ft]
      exact slot_set_none _ _

/-- Witness of C4: in the kernel left by one `open`, descriptor 0 is open and
descriptor 1 is not. -/
theorem sys_close_ebadf_or_releases_witness :
    sys_close ramfs (opened [] O_RDONLY) 1 = ⟨EBADF, -1, opened [] O_RDONLY⟩ ∧
    ((sys_close ramfs (opened [] O_RDONLY) 0).errno = 0 ∧
      (sys_close ramfs (opened [] O_RDONLY) 0).retval = 0 ∧
      (sys_close ramfs (opened [] O_RDONLY) 0).k.ft_openfiles
        = (opened [] O_RDONLY).ft_openfiles.set (0 : Int).toNat none ∧
      (sys_close ramfs (opened [] O_RDONLY) 0).k.ft_openfiles.getD (0 : Int).toNat none
        = none ∧
      ((sys_close ramfs (opened [] O_RDONLY) 0).k.heap 0).of_refcount
        = ((opened [] O_RDONLY).heap 0).of_refcount - 1 ∧
      sys_close ramfs (sys_close ramfs (opened [] O_RDONLY) 0).k 0
        = ⟨EBADF, -1, (sys_close ramfs (opened [] O_RDONLY) 0).k⟩) :=
  ⟨(sys_close_ebadf_or_releases ramfs (opened [] O_RDONLY) 1).1 (Or.inr (by decide)),
   (sys_close_ebadf_or_releases ramfs (opened [] O_RDONLY) 0).2 0 (by decide) (by decide)⟩

/-- C2 at the failing input: two successive 4-byte writes through a read-write
descriptor on an empty seekable object whose offset lock is free.  Each returns
success with `*retval = 4`, yet the instance's offset is 0 after the first and
0 after the second, and the object holds the second buffer only. -/
theorem sys_write_does_not_advance_offset :
    ((opened [] O_RDWR).heap 0).of_accmode = O_RDWR ∧
    ((opened [] O_RDWR).heap 0).of_offset = 0 ∧
    ((opened [] O_RDWR).heap 0).of_offsetlock = false ∧
    ∃ w1 w2,
      sys_write ramfs (opened [] O_RDWR) 0 [1, 2, 3, 4] 4 = Outcome.returned w1 ∧
      sys_write ramfs w1.k 0 [5, 6, 7, 8] 4 = Outcome.returned w2 ∧
      w1.errno = 0 ∧
      w1.retval = 4 ∧
      (w1.k.heap 0).of_offset = 0 ∧
      w2.errno = 0 ∧
      w2.retval = 4 ∧
      (w2.k.heap 0).of_offset = 0 ∧
      ramfs_contents w2.k.vfs "f" = some [5, 6, 7, 8] :=
  ⟨by decide, by decide, by decide, _, _, rfl, rfl, by decide, by decide, by decide, by decide,
    by decide, by decide, by decide⟩

/-- C7 at the failing input: `open("f", O_RDONLY)` on an empty table followed by
`close` of the returned descriptor.  Both return success and the table is again
the empty one, but the instance created by the open (address 0) holds 2
references after the open and 1 after the close: it is not destroyed. -/
theorem open_then_close_keeps_a_reference :
    allflags = O_RDONLY ||| allflags ∧
    (boot [("f", [])] 4).heap_next = 0 ∧
    (sys_open ramfs (boot [("f", [])] 4) "f" O_RDONLY 0).errno = 0 ∧
    (sys_open ramfs (boot [("f", [])] 4) "f" O_RDONLY 0).retval = 0 ∧
    slot (opened [] O_RDONLY).ft_openfiles 0 = some 0 ∧
    ((opened [] O_RDONLY).heap 0).of_refcount = 2 ∧
    (sys_close ramfs (opened [] O_RDONLY) 0).errno = 0 ∧
    (sys_close ramfs (opened [] O_RDONLY) 0).k.ft_openfiles
      = (boot [("f", [])] 4).ft_openfiles ∧
    ((sys_close ramfs (opened [] O_RDONLY) 0).k.heap 0).of_refcount = 1 := by
  decide

/-- Whenever `sys_open` succeeds, closing the descriptor it returned succeeds
and restores the table, and the instance the open created (at the address
`heap_next` of the state before) is left with one reference. -/
theorem open_then_close_refcount_one {σ : Type} (ops : Collab σ) (k : Kernel σ)
    (upath : String) (flags mode : Nat)
    (h : (sys_open ops k upath flags mode).errno = 0) :
    (sys_close ops (sys_open ops k upath flags mode).k
      (sys_open ops k upath flags mode).retval).errno = 0 ∧
    (sys_close ops (sys_open ops k upath flags mode).k
      (sys_open ops k upath flags mode).retval).k.ft_openfiles = k.ft_openfiles ∧
    ((sys_close ops (sys_open ops k upath flags mode).k
      (sys_open ops k upath flags mode).retval).k.heap k.heap_next).of_refcount = 1 := by
  obtain ⟨vfs1, vn, i, hl, ho⟩ := sys_open_success ops k upath flags mode h
  obtain ⟨hlt, hnone⟩ := lowestFree_spec _ _ hl
  rw [ho]
  have hs : slot (k.ft_openfiles.set i (some k.heap_next)) (i : Int) = some k.heap_next := by
    unfold slot
    simp [List.getD_eq_getElem?_getD, hlt]
  rw [sys_close_of_slot_some ops _ _ k.heap_next hs]
  refine ⟨rfl, ?_, ?_⟩
  · simp only [openfile_decref_ft, Int.toNat_ofNat]
    exact set_set_none_of_getD_none _ _ _ hnone
  · simp [openfile_decref_heap]

/-- C9 at the failing input: a 4-byte write through a read-write descriptor,
offset lock free, whose storage object fails every write with `ENOSPC`.
`VOP_WRITE` returns `ENOSPC`, `sys_write` returns success with `*retval = 0`;
on the same storage object `sys_read` hands the error of `VOP_READ` to its
caller. -/
theorem sys_write_ignores_transfer_error :
    ((opened [] O_RDWR).heap 0).of_offsetlock = false ∧
    (faultyfs.VOP_WRITE (opened [] O_RDWR).vfs ((opened [] O_RDWR).heap 0).of_vnode
      (uio_kinit [1, 2, 3, 4] 4 ((opened [] O_RDWR).heap 0).of_offset UioRw.UIO_WRITE)).1
      = ENOSPC ∧
    (∃ w, sys_write faultyfs (opened [] O_RDWR) 0 [1, 2, 3, 4] 4 = Outcome.returned w ∧
      w.errno = 0 ∧ w.retval = 0) ∧
    (∃ r, sys_read faultyfs (opened [] O_RDWR) 0 [0, 0, 0, 0] 4 = Outcome.returned r ∧
      r.errno = ENODEV ∧ r.retval = -1) :=
  ⟨by decide, by decide, ⟨_, rfl, by decide, by decide⟩, ⟨_, rfl, by decide, by decide⟩⟩

/-- C10 at the failing inputs, all on a seekable object whose offset lock is
free and with no pin outstanding on entry: `sys_read` through a write-only
descriptor and `sys_write` through a read-only descriptor return `EACCES`, and
`sys_read` whose transfer fails returns the transfer's error; each time the
offset lock is held and one pin is outstanding on return. -/
theorem offset_lock_held_after_error_return :
    ramfs.VOP_ISSEEKABLE (opened [] O_WRONLY).vfs ((opened [] O_WRONLY).heap 0).of_vnode
      = true ∧
    ((opened [] O_WRONLY).heap 0).of_offsetlock = false ∧
    (opened [] O_WRONLY).ft_pins = 0 ∧
    (∃ r, sys_read ramfs (opened [] O_WRONLY) 0 [0, 0, 0, 0] 4 = Outcome.returned r ∧
      r.errno = EACCES ∧ (r.k.heap 0).of_offsetlock = true ∧ r.k.ft_pins = 1) ∧
    ((opened [] O_RDONLY).heap 0).of_offsetlock = false ∧
    (opened [] O_RDONLY).ft_pins = 0 ∧
    (∃ w, sys_write ramfs (opened [] O_RDONLY) 0 [1, 2, 3, 4] 4 = Outcome.returned w ∧
      w.errno = EACCES ∧ (w.k.heap 0).of_offsetlock = true ∧ w.k.ft_pins = 1) ∧
    (∃ r, sys_read faultyfs (opened [] O_RDONLY) 0 [0, 0, 0, 0] 4 = Outcome.returned r ∧
      r.errno = ENODEV ∧ (r.k.heap 0).of_offsetlock = true ∧ r.k.ft_pins = 1) :=
  ⟨by decide, by decide, by decide, ⟨_, rfl, by decide, by decide, by decide⟩,
    by decide, by decide, ⟨_, rfl, by decide, by decide, by decide⟩,
    ⟨_, rfl, by decide, by decide, by decide⟩⟩

/-- C1 at the failing inputs.  Sources of 6 and 4 bytes: the call does not
return success; it stores through the null pointer in its first closing call,
the destination holding the 4 bytes `[5, 6, 13, 14]` (the last 4-byte write,
whose tail is left over from the previous read), not the 10 bytes
`[1, 2, 3, 4, 11, 12, 13, 14, 5, 6]`; on a storage object that appends every
write the destination holds 12 bytes at that point.  Sources of the test
program: the destination holds the 4 bytes "hhhh" at that point; it holds the
32 expected bytes only on a storage object that appends every write. -/
theorem sys_meld_writes_whole_chunks_at_fixed_offset :
    ((observe "C" (sys_meld ramfs 8 (boot shortSources 8) (some "A") (some "B") "C"
        [0, 0, 0, 0])).1 = Ending.faulted ∧
      (observe "C" (sys_meld ramfs 8 (boot shortSources 8) (some "A") (some "B") "C"
        [0, 0, 0, 0])).2.map (fun v => v.1) = some (some [5, 6, 13, 14])) ∧
    ((observe "C" (sys_meld appendfs 8 (boot shortSources 8) (some "A") (some "B") "C"
        [0, 0, 0, 0])).1 = Ending.faulted ∧
      (observe "C" (sys_meld appendfs 8 (boot shortSources 8) (some "A") (some "B") "C"
        [0, 0, 0, 0])).2.map (fun v => v.1)
        = some (some [1, 2, 3, 4, 11, 12, 13, 14, 5, 6, 13, 14])) ∧
    ((observe "meldtest3" (sys_meld ramfs 8 (boot testSources 8) (some "meldtest1")
        (some "meldtest2") "meldtest3" [0, 0, 0, 0])).1 = Ending.faulted ∧
      (observe "meldtest3" (sys_meld ramfs 8 (boot testSources 8) (some "meldtest1")
        (some "meldtest2") "meldtest3" [0, 0, 0, 0])).2.map (fun v => v.1)
        = some (some (bytes "hhhh"))) ∧
    ((observe "meldtest3" (sys_meld appendfs 8 (boot testSources 8) (some "meldtest1")
        (some "meldtest2") "meldtest3" [0, 0, 0, 0])).1 = Ending.faulted ∧
      (observe "meldtest3" (sys_meld appendfs 8 (boot testSources 8) (some "meldtest1")
        (some "meldtest2") "meldtest3" [0, 0, 0, 0])).2.map (fun v => v.1)
        = some (some (bytes "AAAAeeeeBBBBffffCCCCggggDDDDhhhh"))) := by
  refine ⟨⟨by decide, by decide⟩, ⟨by decide, by decide⟩, ⟨by decide, by decide⟩,
    ⟨by decide, by decide⟩⟩

/-- C8 at the failing inputs, the table being empty on entry.  With two free
slots the third placement fails: the call returns `EMFILE`, descriptors 0 and 1
stay open and the three instances hold 2 references each.  With the
destination already present the third open fails: the call returns `EEXIST`
and the two source instances keep their reference.  With a storage object whose
reads fail the first read of the loop fails: the call returns its error with
descriptors 0, 1 and 2 open.  When the loop ends with its `break` the call does
not return: it stores through the null pointer in `sys_close(fd1, errno)`,
descriptors 1 and 2 still open. -/
theorem sys_meld_leaves_descriptors_and_references :
    (boot shortSources 2).ft_openfiles = [none, none] ∧
    observe "C" (sys_meld ramfs 8 (boot shortSources 2) (some "A") (some "B") "C"
      [0, 0, 0, 0])
      = (Ending.returned EMFILE, some (some [], [some 0, some 1], [2, 2, 2])) ∧
    observe "C" (sys_meld ramfs 8 (boot (shortSources ++ [("C", [9])]) 4) (some "A")
      (some "B") "C" [0, 0, 0, 0])
      = (Ending.returned EEXIST, some (some [9], [none, none, none, none], [1, 1, 0])) ∧
    observe "C" (sys_meld faultyfs 8 (boot shortSources 4) (some "A") (some "B") "C"
      [0, 0, 0, 0])
      = (Ending.returned ENODEV, some (some [], [some 0, some 1, some 2, none], [2, 2, 2])) ∧
    observe "C" (sys_meld ramfs 8 (boot shortSources 4) (some "A") (some "B") "C"
      [0, 0, 0, 0])
      = (Ending.faulted, some (some [5, 6, 13, 14], [none, some 1, some 2, none], [1, 2, 2])) := by
  refine ⟨by decide, ?_, ?_, ?_, ?_⟩
  · decide
  · decide
  · decide
  · decide

/-! ## General forms of the findings -/

/-- No call of `sys_write` that returns has changed the offset of any instance,
whatever the collaborators do. -/
theorem sys_write_offset_unchanged {σ : Type} (ops : Collab σ) (k : Kernel σ) (fd : Int)
    (buf : List Nat) (nbytes p : Nat) (w : SysResult σ)
    (h : sys_write ops k fd buf nbytes = Outcome.returned w) :
    (w.k.heap p).of_offset = (k.heap p).of_offset := by
  unfold sys_write filetable_get at h
  cases hslot : slot k.ft_openfiles fd with
  | none =>
    simp [hslot, EBADF] at h
    subst h
    rfl
  | some file =>
    by_cases hp : p = file <;>
      cases hs : ops.VOP_ISSEEKABLE k.vfs (k.heap file).of_vnode <;>
      cases hl : (k.heap file).of_offsetlock <;>
      by_cases hm : (k.heap file).of_accmode = O_RDONLY <;>
      simp [hslot, lock_acquire, setFile, hs, hl, hm] at h <;>
      subst h <;>
      simp [lock_release, setFile, filetable_put, hp]

/-- Whatever `VOP_WRITE` returns, a call of `sys_write` that gets to the
transfer (the descriptor resolves to an instance that is not read-only, whose
offset lock is free if its object is seekable) returns success. -/
theorem sys_write_errno_zero {σ : Type} (ops : Collab σ) (k : Kernel σ) (fd : Int)
    (buf : List Nat) (nbytes file : Nat) (hslot : slot k.ft_openfiles fd = some file)
    (hmode : (k.heap file).of_accmode ≠ O_RDONLY)
    (hfree : ops.VOP_ISSEEKABLE k.vfs (k.heap file).of_vnode = true →
      (k.heap file).of_offsetlock = false) :
    ∃ w, sys_write ops k fd buf nbytes = Outcome.returned w ∧ w.errno = 0 := by
  cases hs : ops.VOP_ISSEEKABLE k.vfs (k.heap file).of_vnode
  · simp [sys_write, filetable_get, hslot, hs, hmode]
  · have hl := hfree hs
    simp [sys_write, filetable_get, lock_acquire, setFile, hslot, hs, hl, hmode]

/-- Whenever `sys_read` is refused for the access mode on a seekable object
whose offset lock was free, it returns with the lock held and one more pin
outstanding. -/
theorem sys_read_eacces_keeps_lock {σ : Type} (ops : Collab σ) (k : Kernel σ) (fd : Int)
    (buf : List Nat) (size file : Nat) (hslot : slot k.ft_openfiles fd = some file)
    (hseek : ops.VOP_ISSEEKABLE k.vfs (k.heap file).of_vnode = true)
    (hfree : (k.heap file).of_offsetlock = false)
    (hmode : (k.heap file).of_accmode = O_WRONLY) :
    ∃ r, sys_read ops k fd buf size = Outcome.returned r ∧
      r.errno = EACCES ∧
      (r.k.heap file).of_offsetlock = true ∧
      r.k.ft_pins = k.ft_pins + 1 := by
  simp [sys_read, filetable_get, lock_acquire, setFile, hslot, hseek, hfree, hmode]

/-- A call of `sys_read` or `sys_write` on a seekable object whose offset lock
is held does not return. -/
theorem held_lock_blocks {σ : Type} (ops : Collab σ) (k : Kernel σ) (fd : Int)
    (buf : List Nat) (size file : Nat) (hslot : slot k.ft_openfiles fd = some file)
    (hseek : ops.VOP_ISSEEKABLE k.vfs (k.heap file).of_vnode = true)
    (hheld : (k.heap file).of_offsetlock = true) :
    sys_read ops k fd buf size = Outcome.blocked { k with ft_pins := k.ft_pins + 1 } ∧
    sys_write ops k fd buf size = Outcome.blocked { k with ft_pins := k.ft_pins + 1 } := by
  constructor
  · simp [sys_read, filetable_get, lock_acquire, hslot, hseek, hheld]
  · simp [sys_write, filetable_get, lock_acquire, hslot, hseek, hheld]


/-- Once the loop of `sys_meld` ends within a bound, a larger bound gives the
same outcome. -/
theorem meld_loop_fuel_succ {σ : Type} (ops : Collab σ) (fuel : Nat) :
    ∀ (k : Kernel σ) (fd1 fd2 fd3 write1size write2size : Int) (readbuf : List Nat),
      meld_loop ops fuel k fd1 fd2 fd3 write1size write2size readbuf ≠ Outcome.nofuel →
      meld_loop ops (fuel + 1) k fd1 fd2 fd3 write1size write2size readbuf
        = meld_loop ops fuel k fd1 fd2 fd3 write1size write2size readbuf := by
  induction fuel with
  | zero =>
    intro k fd1 fd2 fd3 write1size write2size readbuf h
    exact absurd rfl h
  | succ f ih =>
    intro k fd1 fd2 fd3 write1size write2size readbuf h
    rw [meld_loop.eq_2] at h
    rw [meld_loop.eq_2]
    conv_rhs => rw [meld_loop.eq_2]
    by_cases hc : write1size = 0 ∧ write2size = 0
    · simp only [hc, and_self, if_true]
    · simp only [hc, if_false] at h ⊢
      cases hr1 : sys_read ops k fd1 readbuf 4 with
      | blocked kb => simp only [Outcome.andThen]
      | faulted kf => simp only [Outcome.andThen]
      | nofuel => simp only [Outcome.andThen]
      | returned r1 =>
        simp only [hr1, Outcome.andThen] at h ⊢
        by_cases he1 : r1.errno ≠ 0
        · simp only [if_pos he1]
        · simp only [he1, if_false] at h ⊢
          cases hw1 : (if r1.retval ≠ 0 then sys_write ops r1.k fd3 r1.buf 4
              else Outcome.returned ⟨0, 0, r1.k⟩) with
          | blocked kb => simp only [Outcome.andThen]
          | faulted kf => simp only [Outcome.andThen]
          | nofuel => simp only [Outcome.andThen]
          | returned w1 =>
            simp only [hw1, Outcome.andThen] at h ⊢
            by_cases he2 : w1.errno ≠ 0
            · simp only [if_pos he2]
            · simp only [he2, if_false] at h ⊢
              cases hr2 : sys_read ops w1.k fd2 r1.buf 4 with
              | blocked kb => simp only [Outcome.andThen]
              | faulted kf => simp only [Outcome.andThen]
              | nofuel => simp only [Outcome.andThen]
              | returned r2 =>
                simp only [hr2, Outcome.andThen] at h ⊢
                by_cases he3 : r2.errno ≠ 0
                · simp only [if_pos he3]
                · simp only [he3, if_false] at h ⊢
                  cases hw2 : (if r2.retval ≠ 0 then sys_write ops r2.k fd3 r2.buf 4
                      else Outcome.returned ⟨0, 0, r2.k⟩) with
                  | blocked kb => simp only [Outcome.andThen]
                  | faulted kf => simp only [Outcome.andThen]
                  | nofuel => simp only [Outcome.andThen]
                  | returned w2 =>
                    simp only [hw2, Outcome.andThen] at h ⊢
                    by_cases he4 : w2.errno ≠ 0
                    · simp only [if_pos he4]
                    · simp only [he4, if_false] at h ⊢
                      exact ih _ _ _ _ _ _ _ h

end FileSyscalls
